import Mathlib

/-!
Shallow embedding of the result library (result.hpp) and its demo program.

The C++ class Result<T, E> stores two fields:
  data_  : union OkOrErr { struct {} uninit; T ok; E err; }
  state_ : enum ResultState { Ok = 1, Err = 2, Moved = 4, MovedOk = 5, MovedErr = 6 }

The four private tagged constructors initialize either (data_.ok = t, state_ = Ok)
or (data_.err = e, state_ = Err).  The only writes to state_ afterwards are
Ok -> MovedOk (in unwrap, unwrap_or, unwrap_or_else, unwrap_or_default, expect)
and Err -> MovedErr (in unwrap_err); the moved-from union member stays alive
(for the scalar payloads used here a moved-from object keeps its value).  So the
pair (data_, state_) always has one of five shapes, which the Lean inductive
Result enumerates directly; the enum value Moved (0x4) is declared but never
assigned by any member function, and carries no live union member.

Panic channel: in the default build (NO_EXCEPTIONS not defined) detail::panic
formats the message with snprintf and throws a std::runtime_error carrying it,
a catchable language-level error.  Operations that can panic therefore return
Except String, the error branch carrying the formatted message of the
runtime_error the C++ throws.  The panic branch of each member assigns neither
state_ nor data_, so a panicking call leaves the object exactly as it was; the
error branch of the model accordingly carries no successor object.
-/

namespace ResultCpp

/-- detail::ResultState from result.hpp: Ok = 1, Err = 2, Moved = 4,
MovedOk = 5, MovedErr = 6. -/
inductive ResultState : Type where
  | Ok
  | Err
  | Moved
  | MovedOk
  | MovedErr
deriving DecidableEq

/-- The contents of a Result<T, E>: the pair of fields (data_, state_),
restricted to the shapes reachable through the class (see the header comment).
movedOk t is the state after the ok value t has been moved out; movedErr e
likewise for the err side; moved is the declared-but-never-assigned enum value
Moved. -/
inductive Result (T E : Type) : Type where
  | ok (t : T)
  | err (e : E)
  | moved
  | movedOk (t : T)
  | movedErr (e : E)
deriving DecidableEq

/-- The state_ field of a Result. -/
def Result.state {T E : Type} : Result T E → ResultState
  | Result.ok _ => ResultState.Ok
  | Result.err _ => ResultState.Err
  | Result.moved => ResultState.Moved
  | Result.movedOk _ => ResultState.MovedOk
  | Result.movedErr _ => ResultState.MovedErr

/-- detail::panic formats its message with std::snprintf; every call site in
result.hpp uses at most one %s hole.  formatChars substitutes the argument
string for each %s hole, walking the characters of the format string. -/
def formatChars (arg : String) : List Char → String
  | [] => ""
  | '%' :: 's' :: rest => arg ++ formatChars arg rest
  | c :: rest => String.singleton c ++ formatChars arg rest

/-- snprintf-style formatting restricted to %s holes, as detail::panic uses
it. -/
def formatS (fmt arg : String) : String :=
  formatChars arg fmt.data

/-- bool Result::is_ok() const, result.hpp: returns State::Ok == state_.
The method is const: it neither writes state_ nor touches data_. -/
def Result.is_ok {T E : Type} (r : Result T E) : Bool :=
  decide (r.state = ResultState.Ok)

/-- bool Result::is_err() const, result.hpp: returns State::Err == state_.
The method is const: it neither writes state_ nor touches data_. -/
def Result.is_err {T E : Type} (r : Result T E) : Bool :=
  decide (r.state = ResultState.Err)

/-- T Result::unwrap(): if state_ == Ok, set state_ to MovedOk and move the ok
value out; otherwise panic with a %s diagnostic that reads "an erroneous" when
state_ == Err and "a moved" otherwise. -/
def Result.unwrap {T E : Type} : Result T E → Except String (T × Result T E)
  | Result.ok t => Except.ok (t, Result.movedOk t)
  | r => Except.error (formatS "Panic: Called unwrap() on %s result!"
      (if r.state = ResultState.Err then "an erroneous" else "a moved"))

/-- E Result::unwrap_err(): if state_ == Err, set state_ to MovedErr and move
the err value out; otherwise panic with a %s diagnostic that reads "an OK"
when state_ == Ok and "a moved" otherwise. -/
def Result.unwrap_err {T E : Type} : Result T E → Except String (E × Result T E)
  | Result.err e => Except.ok (e, Result.movedErr e)
  | r => Except.error (formatS "Panic: Called unwrap_err() on %s result!"
      (if r.state = ResultState.Ok then "an OK" else "a moved"))

/-- T Result::unwrap_or(T&& optb): if state_ == Ok, consume exactly as unwrap
does; in every other state return optb, leaving state_ and data_ untouched. -/
def Result.unwrap_or {T E : Type} (r : Result T E) (optb : T) :
    T × Result T E :=
  match r with
  | Result.ok t => (t, Result.movedOk t)
  | r => (optb, r)

/-- T Result::unwrap_or_else(F&& op): if state_ == Ok, consume exactly as
unwrap does; in every other state return op() — op is invoked with no
arguments (its type is F with op() well formed) and state_ and data_ are left
untouched. -/
def Result.unwrap_or_else {T E : Type} (r : Result T E) (op : Unit → T) :
    T × Result T E :=
  match r with
  | Result.ok t => (t, Result.movedOk t)
  | r => (op (), r)

/-- T Result::unwrap_or_default(): if state_ == Ok, consume exactly as unwrap
does; in every other state return a default-constructed T(), leaving state_
and data_ untouched.  T() is modelled by the default of an Inhabited
instance. -/
def Result.unwrap_or_default {T E : Type} [Inhabited T] (r : Result T E) :
    T × Result T E :=
  match r with
  | Result.ok t => (t, Result.movedOk t)
  | r => (default, r)

/-- T Result::expect(const char* msg): if state_ == Ok, consume exactly as
unwrap does; otherwise panic with the caller-supplied message verbatim (the
message passes through snprintf with no format arguments). -/
def Result.expect {T E : Type} (r : Result T E) (msg : String) :
    Except String (T × Result T E) :=
  match r with
  | Result.ok t => Except.ok (t, Result.movedOk t)
  | _ => Except.error msg

/-- Result::match (the value-returning overload of result.hpp): if
State::Ok == state_, return if_ok(unwrap()), else return if_err(unwrap_err()).
The argument of the chosen branch is produced by the consuming extractor, so a
panic inside unwrap or unwrap_err (moved state, or the impossible wrong-side
case) propagates before either branch runs. -/
def Result.match_ {T E R : Type} (r : Result T E) (if_ok : T → R)
    (if_err : E → R) : Except String R :=
  if r.state = ResultState.Ok then
    match r.unwrap with
    | Except.ok (t, _) => Except.ok (if_ok t)
    | Except.error msg => Except.error msg
  else
    match r.unwrap_err with
    | Except.ok (e, _) => Except.ok (if_err e)
    | Except.error msg => Except.error msg

/-- variants::NullOk, the zero-size marker for the absent ok side. -/
inductive NullOk : Type where
  | mk
deriving DecidableEq

/-- variants::NullErr, the zero-size marker for the absent err side. -/
inductive NullErr : Type where
  | mk
deriving DecidableEq

/-- result::ok(value): builds a Result<T, NullErr> through the private OkTag
constructor, i.e. with data_.ok = value and state_ = Ok. -/
def ok {T : Type} (v : T) : Result T NullErr :=
  Result.ok v

/-- result::err(value): builds a Result<NullOk, E> through the private ErrTag
constructor, i.e. with data_.err = value and state_ = Err. -/
def err {E : Type} (e : E) : Result NullOk E :=
  Result.err e

/-- The converting constructor Result(Result<U, variants::NullErr>&& result):
member initialization copies state_ from the source before the body runs, then
the body placement-news data_ from result.unwrap().  A panic inside unwrap
(source not in the Ok state) propagates out of the constructor, so an object
is completed exactly when the source is Ok, carrying the copied Ok state and
the moved value.  Specialized to U = T (the demo and tests convert at the same
ok type). -/
def Result.from_ok {T E : Type} (r : Result T NullErr) :
    Except String (Result T E) :=
  match r.unwrap with
  | Except.ok (t, _) => Except.ok (Result.ok t)
  | Except.error msg => Except.error msg

/-- The converting constructor Result(Result<variants::NullOk, F>&& result):
symmetric to from_ok, moving the err value out with result.unwrap_err().
Specialized to F = E. -/
def Result.from_err {T E : Type} (r : Result NullOk E) :
    Except String (Result T E) :=
  match r.unwrap_err with
  | Except.ok (e, _) => Except.ok (Result.err e)
  | Except.error msg => Except.error msg

/-- Modelled from the spec: operator== on ResultType is absent from the
headers under src (only the test test_eq in main.cpp calls it).  Spec,
section 4.1, Equality: two ResultTypes are equal iff both are in the Success
state with equal success values, or both in the Failure state with equal
failure values; a Success and a Failure are always unequal; comparing a
consumed value is a precondition violation (consumed operands compare unequal
here). -/
def Result.eq {T E : Type} [DecidableEq T] [DecidableEq E] :
    Result T E → Result T E → Bool
  | Result.ok a, Result.ok b => decide (a = b)
  | Result.err a, Result.err b => decide (a = b)
  | _, _ => false

/-- int sqrt(int x) from the demo translation unit: int(std::sqrt(x)); for the
nonnegative inputs the demo feeds it this is the integer square root
(truncation of the exact double square root of a small int). -/
def sqrt (x : Int) : Int :=
  Int.ofNat (Nat.sqrt x.toNat)

/-- div_safe(a, b) from the demo: ok(a / b) when b != 0 (C++ int division
truncates toward zero, Int.tdiv), else
err(runtime_error("Division by zero is undefined!")).  The runtime_error is
modelled by its message string; the implicit conversion of the half-typed
ok / err value into the declared return type Result<int, runtime_error> is
from_ok / from_err, which on a freshly built ok / err yields exactly the
fully-typed ok / err below. -/
def div_safe (a b : Int) : Result Int String :=
  if b ≠ 0 then Result.ok (Int.tdiv a b)
  else Result.err "Division by zero is undefined!"

/-- div_sqrt(a, b) from the demo with the TRY macro expanded textually:
auto&& result = div_safe(a, b); if (result.is_ok()) value = result.unwrap();
else return err(result.unwrap_err()); then int root = sq(value);
return ok(root).  Generalized over the sqrt step sq so that theorems can show
the failure path is independent of it; panics thread through the Except
channel exactly as exceptions propagate through the C++ function. -/
def div_sqrt_gen (sq : Int → Int) (a b : Int) :
    Except String (Result Int String) :=
  let result := div_safe a b
  if result.is_ok then
    match result.unwrap with
    | Except.ok (value, _) => Except.ok (Result.ok (sq value))
    | Except.error msg => Except.error msg
  else
    match result.unwrap_err with
    | Except.ok (e, _) => Except.ok (Result.err e)
    | Except.error msg => Except.error msg

/-- div_sqrt exactly as written in the demo, with the sqrt step of the demo. -/
def div_sqrt (a b : Int) : Except String (Result Int String) :=
  div_sqrt_gen sqrt a b

/-- C1: for every v, ok(v).is_ok() is true and, after conversion to a
fully-typed Result<T, E>, unwrap() returns v; symmetrically, err(e).is_err()
is true and, after conversion, unwrap_err() returns e. -/
theorem ok_err_roundtrip (T E : Type) (v : T) (e : E) :
    (ok v).is_ok = true ∧
    (Result.from_ok (ok v) : Except String (Result T E))
      = Except.ok (Result.ok v) ∧
    (Result.ok v : Result T E).unwrap = Except.ok (v, Result.movedOk v) ∧
    (err e).is_err = true ∧
    (Result.from_err (err e) : Except String (Result T E))
      = Except.ok (Result.err e) ∧
    (Result.err e : Result T E).unwrap_err
      = Except.ok (e, Result.movedErr e) :=
  ⟨rfl, rfl, rfl, rfl, rfl, rfl⟩

/-- C2: the state transitions only Ok -> MovedOk (on the first successful
unwrap) or Err -> MovedErr (on the first successful unwrap_err), irreversibly;
no operation transitions out of a consumed state (the fallback extractors
leave it fixed, and a panicking extractor writes nothing), and on a consumed
instance every subsequent unconditional consuming extraction (unwrap,
unwrap_err, expect — the extractors of the cited lines) takes the panic path,
never returning a stale or default value. -/
theorem consume_once_state_machine (T E : Type) [Inhabited T]
    (t : T) (e : E) (optb : T) (op : Unit → T) (m : String) :
    ((Result.ok t : Result T E).unwrap = Except.ok (t, Result.movedOk t)) ∧
    ((Result.err e : Result T E).unwrap_err
      = Except.ok (e, Result.movedErr e)) ∧
    ((Result.movedOk t : Result T E).unwrap
      = Except.error "Panic: Called unwrap() on a moved result!") ∧
    ((Result.movedErr e : Result T E).unwrap
      = Except.error "Panic: Called unwrap() on a moved result!") ∧
    ((Result.movedOk t : Result T E).unwrap_err
      = Except.error "Panic: Called unwrap_err() on a moved result!") ∧
    ((Result.movedErr e : Result T E).unwrap_err
      = Except.error "Panic: Called unwrap_err() on a moved result!") ∧
    ((Result.movedOk t : Result T E).expect m = Except.error m) ∧
    ((Result.movedErr e : Result T E).expect m = Except.error m) ∧
    (((Result.movedOk t : Result T E).unwrap_or optb).2
      = Result.movedOk t) ∧
    (((Result.movedErr e : Result T E).unwrap_or optb).2
      = Result.movedErr e) ∧
    (((Result.movedOk t : Result T E).unwrap_or_else op).2
      = Result.movedOk t) ∧
    (((Result.movedErr e : Result T E).unwrap_or_else op).2
      = Result.movedErr e) ∧
    (((Result.movedOk t : Result T E).unwrap_or_default).2
      = Result.movedOk t) ∧
    (((Result.movedErr e : Result T E).unwrap_or_default).2
      = Result.movedErr e) :=
  ⟨rfl, rfl, rfl, rfl, rfl, rfl, rfl, rfl, rfl, rfl, rfl, rfl, rfl, rfl⟩

/-- C3: unwrap on a Success transitions the instance to MovedOk and returns
the success value; in any other state it fails fatally, and in the default
(catchable) build mode the failure is a raised runtime error (the Except
error branch) whose formatted message names an erroneous result when the
instance was actually a failure and a moved result when it was already
consumed. -/
theorem unwrap_panic_diagnostics (T E : Type) (t : T) (e : E) :
    ((Result.ok t : Result T E).unwrap = Except.ok (t, Result.movedOk t)) ∧
    ((Result.err e : Result T E).unwrap
      = Except.error "Panic: Called unwrap() on an erroneous result!") ∧
    ((Result.movedOk t : Result T E).unwrap
      = Except.error "Panic: Called unwrap() on a moved result!") ∧
    ((Result.movedErr e : Result T E).unwrap
      = Except.error "Panic: Called unwrap() on a moved result!") ∧
    ((Result.moved : Result T E).unwrap
      = Except.error "Panic: Called unwrap() on a moved result!") :=
  ⟨rfl, rfl, rfl, rfl, rfl⟩

/-- C4: TRY applied to an expression evaluating to a Failure makes the
enclosing function return that same failure value re-typed to its own return
type, without executing any code after the try point: for every divisor-zero
call, div_sqrt returns exactly the failure produced by div_safe, and it does
so for every possible sqrt step, so the square-root code is never consulted. -/
theorem try_propagates_failure (sq : Int → Int) (a : Int) :
    div_sqrt_gen sq a 0
      = Except.ok (Result.err "Division by zero is undefined!") ∧
    div_safe a 0 = Result.err "Division by zero is undefined!" ∧
    div_sqrt a 0 = Except.ok (Result.err "Division by zero is undefined!") :=
  ⟨rfl, rfl, rfl⟩

/-- C5 counterexample: unwrap_or_else on a Failure does not consume the
failure side — afterwards the state is still Err (not MovedErr) and the
stored failure value 3 is still extractable; the supplied function is nullary
and receives no failure value. -/
theorem unwrap_or_else_keeps_failure :
    ((Result.err (3 : Int) : Result Int Int).unwrap_or_else (fun _ => 99))
      = (99, Result.err 3) ∧
    ((Result.err (3 : Int) : Result Int Int).unwrap_or_else
        (fun _ => 99)).2.state ≠ ResultState.MovedErr ∧
    ((Result.err (3 : Int) : Result Int Int).unwrap_or_else
        (fun _ => 99)).2.unwrap_err = Except.ok (3, Result.movedErr 3) :=
  ⟨rfl, by decide, rfl⟩

/-- C5 amended: unwrap_or_else applied to a Failure computes its result by
calling the supplied nullary function with no arguments (the stored failure
value is not passed) and leaves the failure side unconsumed; applied to a
Success it returns the success value, consuming it. -/
theorem unwrap_or_else_spec (T E : Type) (t : T) (e : E) (op : Unit → T) :
    (Result.err e : Result T E).unwrap_or_else op = (op (), Result.err e) ∧
    (Result.ok t : Result T E).unwrap_or_else op = (t, Result.movedOk t) :=
  ⟨rfl, rfl⟩

/-- C6 counterexample: on a consumed instance the queries do not report the
pre-consumption state: unwrapping ok(10) leaves the MovedOk state, where
is_ok() returns false (the claim says true); symmetrically is_err() is false
on MovedErr. -/
theorem is_ok_false_after_consume :
    (Result.ok (10 : Int) : Result Int Int).unwrap
      = Except.ok (10, Result.movedOk 10) ∧
    (Result.movedOk (10 : Int) : Result Int Int).is_ok = false ∧
    (Result.movedErr (10 : Int) : Result Int Int).is_err = false :=
  ⟨rfl, rfl, rfl⟩

/-- C6 amended: is_ok and is_err never consume the instance (they are const
queries of state_ alone) and never crash in any state; on a consumed instance
both return false — is_ok is true exactly in the live Ok state and is_err
exactly in the live Err state. -/
theorem queries_total_and_live_only (T E : Type) (t : T) (e : E) :
    (Result.ok t : Result T E).is_ok = true ∧
    (Result.ok t : Result T E).is_err = false ∧
    (Result.err e : Result T E).is_ok = false ∧
    (Result.err e : Result T E).is_err = true ∧
    (Result.movedOk t : Result T E).is_ok = false ∧
    (Result.movedOk t : Result T E).is_err = false ∧
    (Result.movedErr e : Result T E).is_ok = false ∧
    (Result.movedErr e : Result T E).is_err = false ∧
    (Result.moved : Result T E).is_ok = false ∧
    (Result.moved : Result T E).is_err = false :=
  ⟨rfl, rfl, rfl, rfl, rfl, rfl, rfl, rfl, rfl, rfl⟩

/-- C7 counterexample: unwrap_or on the failure err(3) with default 99 does
return 99, but it does not consume self — the state afterwards is still Err,
not a consumed state, and the original failure value 3 is still extractable
by unwrap_err. -/
theorem unwrap_or_failure_not_consumed :
    (Result.err (3 : Int) : Result Int Int).unwrap_or 99
      = (99, Result.err 3) ∧
    ((Result.err (3 : Int) : Result Int Int).unwrap_or 99).2.state
      = ResultState.Err ∧
    ((Result.err (3 : Int) : Result Int Int).unwrap_or 99).2.unwrap_err
      = Except.ok (3, Result.movedErr 3) :=
  ⟨rfl, rfl, rfl⟩

/-- C7 amended: for every Failure result, unwrap_or(default_value) returns
default_value, and the call consumes self only in the Success branch — on a
Failure the state is unchanged (still Err) and the original failure value
remains extractable. -/
theorem unwrap_or_spec (T E : Type) (t : T) (e : E) (d : T) :
    (Result.err e : Result T E).unwrap_or d = (d, Result.err e) ∧
    ((Result.err e : Result T E).unwrap_or d).2.unwrap_err
      = Except.ok (e, Result.movedErr e) ∧
    (Result.ok t : Result T E).unwrap_or d = (t, Result.movedOk t) :=
  ⟨rfl, rfl, rfl⟩

/-- C8: match dispatches to exactly one branch chosen by the state, passing it
the corresponding unwrapped value, and returns that branch's result; on a
Failure the result is the failure branch's result for every possible success
branch, so the success branch is never called — in particular on a Failure
carrying 10 only the failure branch runs, on the value 10. -/
theorem match_dispatch (T E R : Type) (f : T → R) (g : E → R)
    (t : T) (e : E) :
    (Result.ok t : Result T E).match_ f g = Except.ok (f t) ∧
    (Result.err e : Result T E).match_ f g = Except.ok (g e) :=
  ⟨rfl, rfl⟩

/-- C9: equality on Result (modelled from the spec; no operator== exists in
the headers under src): two results are equal exactly when both are Ok with
equal values or both Err with equal values, and an Ok and an Err always
compare unequal; concretely ok(10) == ok(10), err(10) == err(10) and
ok(10) != err(10). -/
theorem eq_spec (T E : Type) [DecidableEq T] [DecidableEq E]
    (a b : T) (c d : E) :
    (Result.eq (Result.ok a : Result T E) (Result.ok b) = decide (a = b)) ∧
    (Result.eq (Result.err c : Result T E) (Result.err d) = decide (c = d)) ∧
    (Result.eq (Result.ok a : Result T E) (Result.err c) = false) ∧
    (Result.eq (Result.err c : Result T E) (Result.ok a) = false) ∧
    (Result.eq (Result.ok (10 : Int) : Result Int Int)
      (Result.ok (10 : Int)) = true) ∧
    (Result.eq (Result.err (10 : Int) : Result Int Int)
      (Result.err (10 : Int)) = true) ∧
    (Result.eq (Result.ok (10 : Int))
      (Result.err (10 : Int) : Result Int Int) = false) :=
  ⟨rfl, rfl, rfl, rfl, by decide, by decide, by decide⟩

/-- C10: the fallback extractors unwrap_or, unwrap_or_else and
unwrap_or_default are total: in every state other than Ok — including the
consumed states MovedOk and MovedErr — they return the fallback value (optb,
op(), or a default-constructed T) with the state unchanged, and none of their
branches reaches the panic path (their return type carries no error
channel). -/
theorem fallback_extractors_total (T E : Type) [Inhabited T]
    (t : T) (e : E) (d : T) (op : Unit → T) :
    ((Result.err e : Result T E).unwrap_or d = (d, Result.err e)) ∧
    ((Result.movedOk t : Result T E).unwrap_or d = (d, Result.movedOk t)) ∧
    ((Result.movedErr e : Result T E).unwrap_or d
      = (d, Result.movedErr e)) ∧
    ((Result.moved : Result T E).unwrap_or d = (d, Result.moved)) ∧
    ((Result.err e : Result T E).unwrap_or_else op
      = (op (), Result.err e)) ∧
    ((Result.movedOk t : Result T E).unwrap_or_else op
      = (op (), Result.movedOk t)) ∧
    ((Result.movedErr e : Result T E).unwrap_or_else op
      = (op (), Result.movedErr e)) ∧
    ((Result.moved : Result T E).unwrap_or_else op
      = (op (), Result.moved)) ∧
    ((Result.err e : Result T E).unwrap_or_default
      = (default, Result.err e)) ∧
    ((Result.movedOk t : Result T E).unwrap_or_default
      = (default, Result.movedOk t)) ∧
    ((Result.movedErr e : Result T E).unwrap_or_default
      = (default, Result.movedErr e)) ∧
    ((Result.moved : Result T E).unwrap_or_default
      = (default, Result.moved)) :=
  ⟨rfl, rfl, rfl, rfl, rfl, rfl, rfl, rfl, rfl, rfl, rfl, rfl⟩

end ResultCpp
